import Mathlib

/-!
Shallow embedding of the grsai.com skill scripts
(`veo3-1/scripts/generate_video.py`, `veo3.1/scripts/generate_video.py`,
`plugins/.../gemini3pro/scripts/query_gemini.py`).

The embedding models the asynchronous submit / poll / retry / download
state machine of the video client, and the bounded-retry loop of the
gemini client.  Network interactions are modelled by oracles: a function
from query index (resp. attempt number) to the observed response or
raised error.  Time is discrete: one poll query per `POLL_INTERVAL`
time units, so the deadline check `time < deadline` of the source
becomes `i * POLL_INTERVAL < POLL_TIMEOUT` for the i-th query
(0-indexed), equivalently a budget of `POLL_TIMEOUT / POLL_INTERVAL`
queries.  All delays in the source are integral floats (5.0, doubling,
capped at 60.0), so they are represented exactly as naturals.
-/

namespace Grsai

/-- Substring containment on character lists: `hasSub n h` is true iff
`n` occurs contiguously inside `h` (the Python `n in h` test on strings). -/
def hasSub (needle : List Char) : List Char → Bool
  | [] => needle.isEmpty
  | c :: rest => (List.take needle.length (c :: rest) == needle) || hasSub needle rest

/-- Python `needle in hay` for strings. -/
def strContains (hay needle : String) : Bool :=
  hasSub needle.toList hay.toList

/-- `PERMANENT_KEYWORDS` tuple of `generate_video.py` (both copies). -/
def PERMANENT_KEYWORDS : List String :=
  ["moderation", "nsfw", "invalid", "unauthorized", "forbidden", "not exist"]

/-- Python `str.lower()`, as a character-by-character map so it is
kernel-executable (the messages and keywords involved are ASCII). -/
def pyLower (s : String) : String :=
  String.mk (s.toList.map Char.toLower)

/-- `is_permanent_error` of `generate_video.py`: lowercase the message and
test whether any permanent keyword occurs in it. -/
def is_permanent_error (msg : String) : Bool :=
  PERMANENT_KEYWORDS.any (fun kw => strContains (pyLower msg) kw)

/-- Python rendering of an optional string inside an f-string:
`None` prints as "None". -/
def pyOptStr : Option String → String
  | none => "None"
  | some s => s

/-- Python `response.get(key, default)` for an optional string field. -/
def pyGetD (o : Option String) (d : String) : String :=
  match o with
  | none => d
  | some s => s

/-- The fields of the poll response `data` dict that `poll_result` reads.
A missing `failure_reason` / `error` key behaves as `""` (the source uses
`data.get(key, "")`), so those two are plain strings; `status` distinguishes
a missing key (`none`). -/
structure PollData where
  status : Option String
  progress : Nat
  failure_reason : String
  error : String
deriving DecidableEq

/-- A poll response: `{code, msg, data}`. -/
structure PollResponse where
  code : Int
  msg : Option String
  data : PollData
deriving DecidableEq

/-- The two kinds of exception `poll_result` can raise. -/
inductive PollError where
  | runtimeError (msg : String)
  | timeoutError (msg : String)
deriving DecidableEq

/-- `POLL_INTERVAL = 5.0` seconds between status polls. -/
def POLL_INTERVAL : Nat := 5

/-- `POLL_TIMEOUT = 600` max seconds to wait for generation to complete. -/
def POLL_TIMEOUT : Nat := 600

/-- Python `str.strip()`: drop whitespace characters from both ends.
Implemented over the character list so it is kernel-executable;
`Char.isWhitespace` covers the space, tab and newline characters that
matter for the messages at hand. -/
def pyStrip (s : String) : String :=
  String.mk (((s.toList.dropWhile Char.isWhitespace).reverse.dropWhile Char.isWhitespace).reverse)

/-- The failure reason built in the `status == "failed"` branch:
`(data.get("failure_reason", "") + " " + data.get("error", "")).strip()`,
with the empty string replaced by the fallback message (`reason or fb`). -/
def failReason (d : PollData) (fb : String) : String :=
  let reason := pyStrip (d.failure_reason ++ " " ++ d.error)
  if reason = "" then fb else reason

/-- One iteration of the body of the poll loop on a response `r`:
`some res` when the iteration returns or raises (terminal), `none` when it
falls through to the sleep and polls again.  `fb` is the fallback message
for an empty failure reason (the two script copies differ here). -/
def pollStep (r : PollResponse) (fb : String) : Option (Except PollError PollData) :=
  if r.code ≠ 0 then
    some (Except.error (PollError.runtimeError ("Result API error: " ++ pyOptStr r.msg)))
  else if r.data.status = some "succeeded" then
    some (Except.ok r.data)
  else if r.data.status = some "failed" then
    some (Except.error (PollError.runtimeError (failReason r.data fb)))
  else
    none

/-- The poll loop: `fuel` is the number of queries still admitted by the
deadline (query `i` is issued iff `i * POLL_INTERVAL < POLL_TIMEOUT`,
i.e. iff `POLL_TIMEOUT / POLL_INTERVAL - i > 0`), `i` the index of the
next query.  When the budget is exhausted, `TimeoutError(tm)` is raised. -/
def pollFrom (rs : Nat → PollResponse) (fb tm : String) : Nat → Nat → Except PollError PollData
  | 0, _ => Except.error (PollError.timeoutError tm)
  | fuel + 1, i =>
    match pollStep (rs i) fb with
    | some res => res
    | none => pollFrom rs fb tm fuel (i + 1)

/-- Timeout message of the `veo3-1` copy:
`f"Generation timed out after {POLL_TIMEOUT}s (task: {task_id})"`. -/
def pollTimeoutMsg (taskId : String) : String :=
  "Generation timed out after 600s (task: " ++ taskId ++ ")"

/-- `poll_result` of `veo3-1/scripts/generate_video.py` (fallback message
"Generation failed with unknown reason"), driven by the oracle `rs` of
query responses. -/
def poll_result (taskId : String) (rs : Nat → PollResponse) : Except PollError PollData :=
  pollFrom rs "Generation failed with unknown reason" (pollTimeoutMsg taskId)
    (POLL_TIMEOUT / POLL_INTERVAL) 0

/-- `poll_result` of `veo3.1/scripts/generate_video.py` with its default
arguments (fallback message "unknown failure", timeout message without the
task id). -/
def poll_result_veo31 (rs : Nat → PollResponse) : Except PollError PollData :=
  pollFrom rs "unknown failure" "Generation timed out after 600s"
    (POLL_TIMEOUT / POLL_INTERVAL) 0

/-- A query to `poll_result` that neither returns nor raises: application
code 0 and a status that is neither "succeeded" nor "failed". -/
def nonTerminal (r : PollResponse) : Prop :=
  r.code = 0 ∧ r.data.status ≠ some "succeeded" ∧ r.data.status ≠ some "failed"

instance (r : PollResponse) : Decidable (nonTerminal r) := by
  unfold nonTerminal; infer_instance

/-- Result of one `http_post` call inside the poll loop, as `poll_result`
sees it: either a parsed response dict, or an exception propagating out of
`http_post` (`veo3-1` lines 61-76) — the re-raised per-request read
`TimeoutError` ("Request to ... timed out after 45s", `READ_TIMEOUT = 45`),
or a `RuntimeError` (HTTP 401/429/5xx, other HTTP codes, `URLError`). -/
inductive HttpResult where
  | response (r : PollResponse)
  | httpTimeout (msg : String)
  | httpError (msg : String)
deriving DecidableEq

/-- Errors raised out of the faithful poll loop.  Both timeout forms are
Python `TimeoutError`s; they are distinguished here by origin: a
`queryTimeout` is re-raised from the read timeout of a single `http_post`
call (its message names the request URL and the 45s `READ_TIMEOUT`), a
`deadlineTimeout` is raised by `poll_result` itself when the 600s
`POLL_TIMEOUT` deadline elapses (its message names the task). -/
inductive PollErrorX where
  | runtimeError (msg : String)
  | queryTimeout (msg : String)
  | deadlineTimeout (msg : String)
deriving DecidableEq

/-- One iteration of the poll loop body on the outcome of its `http_post`
call: an exception from `http_post` propagates immediately (there is no
`try` around the call at `veo3-1` line 99); a parsed response is handled
exactly as in `pollStep`. -/
def pollStepHttp (q : HttpResult) (fb : String) : Option (Except PollErrorX PollData) :=
  match q with
  | HttpResult.response r =>
    if r.code ≠ 0 then
      some (Except.error (PollErrorX.runtimeError ("Result API error: " ++ pyOptStr r.msg)))
    else if r.data.status = some "succeeded" then
      some (Except.ok r.data)
    else if r.data.status = some "failed" then
      some (Except.error (PollErrorX.runtimeError (failReason r.data fb)))
    else
      none
  | HttpResult.httpTimeout m => some (Except.error (PollErrorX.queryTimeout m))
  | HttpResult.httpError m => some (Except.error (PollErrorX.runtimeError m))

/-- The poll loop over raising queries: identical control flow to
`pollFrom`, but each query may also raise. -/
def pollFromHttp (qs : Nat → HttpResult) (fb tm : String) :
    Nat → Nat → Except PollErrorX PollData
  | 0, _ => Except.error (PollErrorX.deadlineTimeout tm)
  | fuel + 1, i =>
    match pollStepHttp (qs i) fb with
    | some res => res
    | none => pollFromHttp qs fb tm fuel (i + 1)

/-- `poll_result` of `veo3-1/scripts/generate_video.py` over the faithful
query oracle in which each status request can raise as well as return. -/
def poll_result_http (taskId : String) (qs : Nat → HttpResult) : Except PollErrorX PollData :=
  pollFromHttp qs "Generation failed with unknown reason" (pollTimeoutMsg taskId)
    (POLL_TIMEOUT / POLL_INTERVAL) 0

/-- A query that returned (did not raise) and observed a non-terminal
status. -/
def httpNonTerminal : HttpResult → Prop
  | HttpResult.response r => nonTerminal r
  | HttpResult.httpTimeout _ => False
  | HttpResult.httpError _ => False

instance (q : HttpResult) : Decidable (httpNonTerminal q) := by
  cases q <;> (unfold httpNonTerminal; infer_instance)

/-- The restricted (never-raising) poll error type embeds into the faithful
one: the restricted loop's own `TimeoutError` is the deadline one. -/
def embedPollError : PollError → PollErrorX
  | PollError.runtimeError m => PollErrorX.runtimeError m
  | PollError.timeoutError m => PollErrorX.deadlineTimeout m

/-- The fields of the submit response that `submit_task` reads:
`{code, msg, data: {id}}`; `dataId` is `response.get("data", {}).get("id")`. -/
structure SubmitResponse where
  code : Int
  msg : Option String
  dataId : Option String
deriving DecidableEq

/-- `submit_task` of `veo3-1/scripts/generate_video.py` applied to a parsed
response: non-zero code raises the response message (default "Unknown error
from API"); a missing or empty (falsy) `data.id` raises "No task ID in
response" (the source appends the response repr, elided here); otherwise the
task id is returned. -/
def submit_task (r : SubmitResponse) : Except String String :=
  if r.code ≠ 0 then
    Except.error (pyGetD r.msg "Unknown error from API")
  else
    match r.dataId with
    | none => Except.error "No task ID in response"
    | some tid => if tid = "" then Except.error "No task ID in response" else Except.ok tid

/-- Outcome of one submit-and-poll cycle of `try_generate`, as observed by
its exception handlers: a returned payload, a raised `TimeoutError`, or a
raised `RuntimeError`. -/
inductive CycleOutcome where
  | success (d : PollData)
  | timeoutErr (msg : String)
  | runtimeErr (msg : String)
deriving DecidableEq

/-- The error finally raised by `try_generate`. -/
inductive GenError where
  | timeoutError (msg : String)
  | runtimeError (msg : String)
deriving DecidableEq

/-- The error a failing cycle stores into `last_error`. -/
def cycleErr : CycleOutcome → GenError
  | CycleOutcome.success _ => GenError.runtimeError "No attempts made"
  | CycleOutcome.timeoutErr m => GenError.timeoutError m
  | CycleOutcome.runtimeErr m => GenError.runtimeError m

/-- Cycle `i` fails transiently: it raises `TimeoutError`, or a
`RuntimeError` whose message matches no permanent keyword. -/
def transientAt (outcome : Nat → CycleOutcome) (i : Nat) : Prop :=
  match outcome i with
  | CycleOutcome.success _ => False
  | CycleOutcome.timeoutErr _ => True
  | CycleOutcome.runtimeErr m => is_permanent_error m = false

instance {ε α : Type} [DecidableEq ε] [DecidableEq α] : DecidableEq (Except ε α) :=
  fun x y =>
    match x, y with
    | Except.ok a, Except.ok b =>
      if h : a = b then Decidable.isTrue (by rw [h])
      else Decidable.isFalse (by intro hc; injection hc; exact h (by assumption))
    | Except.ok _, Except.error _ => Decidable.isFalse (by intro hc; injection hc)
    | Except.error _, Except.ok _ => Decidable.isFalse (by intro hc; injection hc)
    | Except.error a, Except.error b =>
      if h : a = b then Decidable.isTrue (by rw [h])
      else Decidable.isFalse (by intro hc; injection hc; exact h (by assumption))

/-- Observable trace of one run of `try_generate`: the returned payload or
raised error, the backoff delays slept (in order), and the number of
submit-and-poll cycles performed. -/
structure GenTrace where
  result : Except GenError PollData
  sleeps : List Nat
  cycles : Nat
deriving DecidableEq

/-- The body of the `for attempt in range(1, max_retries + 1)` loop of
`try_generate` (`veo3-1` copy): `fuel` counts the attempts still available
(`maxRetries + 1 - attempt`), `delay` is the current backoff delay, `le`
the stored `last_error`.  A `TimeoutError` is always transient; a
`RuntimeError` is re-raised at once when `is_permanent_error`; otherwise the
driver sleeps `delay` and doubles it (capped at 60) provided
`attempt < max_retries`, and raises `last_error` after the loop. -/
def tryGenerateGo (outcome : Nat → CycleOutcome) (maxRetries : Nat) :
    Nat → Nat → Nat → GenError → GenTrace
  | 0, _, _, le => ⟨Except.error le, [], 0⟩
  | fuel + 1, attempt, delay, _ =>
    match outcome attempt with
    | CycleOutcome.success d => ⟨Except.ok d, [], 1⟩
    | CycleOutcome.timeoutErr msg =>
      if attempt < maxRetries then
        let t := tryGenerateGo outcome maxRetries fuel (attempt + 1) (min (delay * 2) 60)
          (GenError.timeoutError msg)
        ⟨t.result, delay :: t.sleeps, t.cycles + 1⟩
      else ⟨Except.error (GenError.timeoutError msg), [], 1⟩
    | CycleOutcome.runtimeErr msg =>
      if is_permanent_error msg then ⟨Except.error (GenError.runtimeError msg), [], 1⟩
      else if attempt < maxRetries then
        let t := tryGenerateGo outcome maxRetries fuel (attempt + 1) (min (delay * 2) 60)
          (GenError.runtimeError msg)
        ⟨t.result, delay :: t.sleeps, t.cycles + 1⟩
      else ⟨Except.error (GenError.runtimeError msg), [], 1⟩

/-- `try_generate` of `veo3-1/scripts/generate_video.py`, driven by the
oracle `outcome` giving the result of the cycle run at each attempt
(attempts are numbered from 1).  Initial delay 5, initial
`last_error = RuntimeError("No attempts made")`. -/
def try_generate (outcome : Nat → CycleOutcome) (maxRetries : Nat) : GenTrace :=
  tryGenerateGo outcome maxRetries maxRetries 1 5 (GenError.runtimeError "No attempts made")

/-- The sequence of backoff delays produced from a starting delay by the
update `delay = min(delay * 2, 60)`. -/
def delaySeq (d : Nat) : Nat → List Nat
  | 0 => []
  | k + 1 => d :: delaySeq (min (d * 2) 60) k

/-- The backoff delay after `k` applications of `delay = min(delay * 2, 60)`. -/
def capIter (d : Nat) : Nat → Nat
  | 0 => d
  | k + 1 => capIter (min (d * 2) 60) k

/-- Outcome of one `resp.read(chunk_size)` call in `download_video`: a chunk
of bytes (the empty chunk signalling end of stream), a raised
`urllib.error.URLError`, or a raised `TimeoutError`. -/
inductive ReadEvent where
  | chunk (b : List Nat)
  | urlError (reason : String)
  | timeoutErr
deriving DecidableEq

/-- Observable outcome of `download_video`: the bytes materialized at the
destination path (`none` when `write_bytes` was never reached) and the
raised `RuntimeError` message (`none` on success). -/
structure DlOutcome where
  written : Option (List Nat)
  error : Option String
deriving DecidableEq

/-- The `while True` read loop of `download_video` (`veo3-1` copy): chunks
are accumulated in memory (`acc`, most recent first); on the empty chunk the
loop breaks and the concatenation of all chunks is written to the
destination in one `write_bytes` call; a `URLError` or `TimeoutError`
propagates out of the `with` block before any write, so nothing is
materialized.  The stream of a real response never ends without an empty
chunk or an exception, so the `[]` case is unreachable for well-formed
streams; it is modelled as neither writing nor erroring. -/
def downloadLoop : List ReadEvent → List (List Nat) → DlOutcome
  | [], _ => ⟨none, none⟩
  | ReadEvent.chunk b :: rest, acc =>
    if b.isEmpty then ⟨some (acc.reverse.flatten), none⟩
    else downloadLoop rest (b :: acc)
  | ReadEvent.urlError reason :: _, _ =>
    ⟨none, some ("Network error downloading video: " ++ reason)⟩
  | ReadEvent.timeoutErr :: _, _ =>
    ⟨none, some "Video download timed out after 300s"⟩

/-- `download_video` of `veo3-1/scripts/generate_video.py`, driven by the
stream of read events. -/
def download_video (events : List ReadEvent) : DlOutcome :=
  downloadLoop events []

/-- Outcome of one `http_post` call inside `query_with_retry`
(`query_gemini.py`): a response, a raised `TransientError`, or a raised
(permanent) `RuntimeError`. -/
inductive QueryOutcome where
  | success (resp : String)
  | transientErr (msg : String)
  | runtimeErr (msg : String)
deriving DecidableEq

/-- Observable trace of one run of `query_with_retry`. -/
structure QueryTrace where
  result : Except String String
  sleeps : List Nat
  cycles : Nat
deriving DecidableEq

/-- `MAX_RETRIES = 3` of `query_gemini.py`. -/
def MAX_RETRIES : Nat := 3

/-- `RETRY_DELAY = 4.0` of `query_gemini.py`. -/
def RETRY_DELAY : Nat := 4

/-- The body of the retry loop of `query_with_retry`: a `TransientError`
sleeps `delay` (doubling, capped at 30) while `attempt < MAX_RETRIES` and
otherwise falls out of the loop raising `last_error`; a `RuntimeError` is
re-raised immediately. -/
def queryWithRetryGo (outcome : Nat → QueryOutcome) : Nat → Nat → Nat → String → QueryTrace
  | 0, _, _, le => ⟨Except.error le, [], 0⟩
  | fuel + 1, attempt, delay, _ =>
    match outcome attempt with
    | QueryOutcome.success r => ⟨Except.ok r, [], 1⟩
    | QueryOutcome.transientErr msg =>
      if attempt < MAX_RETRIES then
        let t := queryWithRetryGo outcome fuel (attempt + 1) (min (delay * 2) 30) msg
        ⟨t.result, delay :: t.sleeps, t.cycles + 1⟩
      else ⟨Except.error msg, [], 1⟩
    | QueryOutcome.runtimeErr msg => ⟨Except.error msg, [], 1⟩

/-- `query_with_retry` of `query_gemini.py`, driven by the oracle of
`http_post` outcomes per attempt. -/
def query_with_retry (outcome : Nat → QueryOutcome) : QueryTrace :=
  queryWithRetryGo outcome MAX_RETRIES 1 RETRY_DELAY "No attempts made"

/-! Concrete oracles used to exercise the theorems on closed inputs. -/

/-- A service that reports a pending task forever. -/
def rsPending : Nat → PollResponse :=
  fun _ => ⟨0, none, ⟨some "pending", 40, "", ""⟩⟩

/-- A service whose first query reports `failed` with empty
`failure_reason` and `error` fields. -/
def rsFailedEmpty : Nat → PollResponse :=
  fun _ => ⟨0, none, ⟨some "failed", 0, "", ""⟩⟩

/-- A service whose first query reports `failed` with
`failure_reason = "bad"` and `error = "stuff"`. -/
def rsFailedReason : Nat → PollResponse :=
  fun _ => ⟨0, none, ⟨some "failed", 0, "bad", "stuff"⟩⟩

/-- A service that reports `pending` on the first query and `succeeded` on
the second. -/
def rsSucceedAt1 : Nat → PollResponse :=
  fun i => if i = 0 then ⟨0, none, ⟨some "pending", 40, "", ""⟩⟩
           else ⟨0, none, ⟨some "succeeded", 100, "", ""⟩⟩

/-- A poll run whose very first status request raises the read
`TimeoutError` that `http_post` re-raises after `READ_TIMEOUT = 45`
seconds. -/
def qsReadTimeout : Nat → HttpResult :=
  fun _ => HttpResult.httpTimeout
    "Request to https://grsaiapi.com/v1/draw/result timed out after 45s"

/-- The endlessly pending service, seen through the raising-query oracle:
every request returns a parsed pending response. -/
def qsPending : Nat → HttpResult :=
  fun i => HttpResult.response (rsPending i)

/-- Every cycle raises a moderation rejection (a permanent keyword). -/
def outcomePerm : Nat → CycleOutcome :=
  fun _ => CycleOutcome.runtimeErr "request rejected: moderation"

/-- Every cycle raises a poll timeout; the message even contains the
permanent keyword "invalid", which must not matter for a timeout. -/
def outcomeTimeout : Nat → CycleOutcome :=
  fun _ => CycleOutcome.timeoutErr "timed out (invalid state never reached)"

/-- Every cycle raises a transient server error. -/
def outcomeHttp500 : Nat → CycleOutcome :=
  fun _ => CycleOutcome.runtimeErr "Server error (HTTP 500): boom"

/-! ### Lemmas about the poll loop -/

theorem pollStep_none_iff (r : PollResponse) (fb : String) :
    pollStep r fb = none ↔ nonTerminal r := by
  unfold pollStep nonTerminal
  by_cases h0 : r.code = 0
  · by_cases hs : r.data.status = some "succeeded"
    · simp [h0, hs]
    · by_cases hf : r.data.status = some "failed"
      · simp [h0, hs, hf]
      · simp [h0, hs, hf]
  · simp [h0]

theorem pollStep_ok_iff (r : PollResponse) (fb : String) (d : PollData) :
    pollStep r fb = some (Except.ok d) ↔
      r.code = 0 ∧ r.data.status = some "succeeded" ∧ r.data = d := by
  unfold pollStep
  by_cases h0 : r.code = 0
  · by_cases hs : r.data.status = some "succeeded"
    · simp [h0, hs, eq_comm]
    · by_cases hf : r.data.status = some "failed"
      · simp [h0, hs, hf]
      · simp [h0, hs, hf]
  · simp [h0]

theorem pollStep_ne_timeout (r : PollResponse) (fb : String)
    (res : Except PollError PollData) (m : String)
    (h : pollStep r fb = some res) : res ≠ Except.error (PollError.timeoutError m) := by
  unfold pollStep at h
  by_cases h0 : r.code = 0
  · by_cases hs : r.data.status = some "succeeded"
    · simp [h0, hs] at h; simp [← h]
    · by_cases hf : r.data.status = some "failed"
      · simp [h0, hs, hf] at h; simp [← h]
      · simp [h0, hs, hf] at h
  · simp [h0] at h; simp [← h]

theorem pollFrom_at (rs : Nat → PollResponse) (fb tm : String) :
    ∀ fuel i j res, j < fuel → (∀ l, l < j → pollStep (rs (i + l)) fb = none) →
      pollStep (rs (i + j)) fb = some res → pollFrom rs fb tm fuel i = res := by
  intro fuel
  induction fuel with
  | zero => intro i j res hj; omega
  | succ fuel ih =>
    intro i j res hj hnone hsome
    match j with
    | 0 =>
      simp only [Nat.add_zero] at hsome
      simp [pollFrom, hsome]
    | j + 1 =>
      have h0 : pollStep (rs i) fb = none := by
        have := hnone 0 (by omega)
        simpa using this
      simp only [pollFrom, h0]
      apply ih (i + 1) j res (by omega)
      · intro l hl
        have := hnone (l + 1) (by omega)
        have e : i + (l + 1) = i + 1 + l := by omega
        rwa [e] at this
      · have e : i + (j + 1) = i + 1 + j := by omega
        rwa [e] at hsome

theorem pollFrom_timeout_iff (rs : Nat → PollResponse) (fb tm : String) :
    ∀ fuel i m, pollFrom rs fb tm fuel i = Except.error (PollError.timeoutError m) ↔
      (m = tm ∧ ∀ j, j < fuel → pollStep (rs (i + j)) fb = none) := by
  intro fuel
  induction fuel with
  | zero =>
    intro i m
    constructor
    · intro h
      refine ⟨?_, by intro j hj; omega⟩
      simp [pollFrom] at h
      exact h.symm
    · rintro ⟨hm, -⟩
      simp [pollFrom, hm]
  | succ fuel ih =>
    intro i m
    cases hstep : pollStep (rs i) fb with
    | some res =>
      simp only [pollFrom, hstep]
      constructor
      · intro h
        exact absurd h (pollStep_ne_timeout (rs i) fb res m hstep)
      · intro h
        have := h.2 0 (by omega)
        simp [hstep] at this
    | none =>
      simp only [pollFrom, hstep]
      rw [ih (i + 1) m]
      constructor
      · rintro ⟨hm, hall⟩
        refine ⟨hm, ?_⟩
        intro j hj
        match j with
        | 0 => simpa using hstep
        | j + 1 =>
          have := hall j (by omega)
          have e : i + 1 + j = i + (j + 1) := by omega
          rwa [e] at this
      · rintro ⟨hm, hall⟩
        refine ⟨hm, ?_⟩
        intro j hj
        have := hall (j + 1) (by omega)
        have e : i + (j + 1) = i + 1 + j := by omega
        rwa [e] at this

theorem pollFrom_ok_iff (rs : Nat → PollResponse) (fb tm : String) :
    ∀ fuel i d, pollFrom rs fb tm fuel i = Except.ok d ↔
      ∃ j, j < fuel ∧ (∀ l, l < j → pollStep (rs (i + l)) fb = none) ∧
        pollStep (rs (i + j)) fb = some (Except.ok d) := by
  intro fuel
  induction fuel with
  | zero =>
    intro i d
    constructor
    · intro h; exact absurd h (by simp [pollFrom])
    · rintro ⟨j, hj, -, -⟩; omega
  | succ fuel ih =>
    intro i d
    cases hstep : pollStep (rs i) fb with
    | some res =>
      simp only [pollFrom, hstep]
      constructor
      · intro h
        refine ⟨0, by omega, by intro l hl; omega, ?_⟩
        simpa [hstep] using congrArg some h
      · rintro ⟨j, hj, hnone, hsome⟩
        match j with
        | 0 =>
          simp only [Nat.add_zero, hstep] at hsome
          injection hsome
        | j + 1 =>
          have := hnone 0 (by omega)
          simp [hstep] at this
    | none =>
      simp only [pollFrom, hstep]
      rw [ih (i + 1) d]
      constructor
      · rintro ⟨j, hj, hnone, hsome⟩
        refine ⟨j + 1, by omega, ?_, ?_⟩
        · intro l hl
          match l with
          | 0 => simpa using hstep
          | l + 1 =>
            have := hnone l (by omega)
            have e : i + 1 + l = i + (l + 1) := by omega
            rwa [e] at this
        · have e : i + 1 + j = i + (j + 1) := by omega
          rwa [e] at hsome
      · rintro ⟨j, hj, hnone, hsome⟩
        match j with
        | 0 =>
          simp only [Nat.add_zero, hstep] at hsome
          injection hsome
        | j + 1 =>
          refine ⟨j, by omega, ?_, ?_⟩
          · intro l hl
            have := hnone (l + 1) (by omega)
            have e : i + (l + 1) = i + 1 + l := by omega
            rwa [e] at this
          · have e : i + (j + 1) = i + 1 + j := by omega
            rwa [e] at hsome

theorem pollIndexBound (i : Nat) :
    i < POLL_TIMEOUT / POLL_INTERVAL ↔ i * POLL_INTERVAL < POLL_TIMEOUT := by
  simp [POLL_TIMEOUT, POLL_INTERVAL]
  omega

theorem pollStep_failed (r : PollResponse) (fb : String)
    (hc : r.code = 0) (hf : r.data.status = some "failed") :
    pollStep r fb = some (Except.error (PollError.runtimeError (failReason r.data fb))) := by
  have hs : ¬r.data.status = some "succeeded" := by rw [hf]; simp
  unfold pollStep
  simp [hc, hs, hf]

theorem failReason_eq (d : PollData) (fb : String) :
    failReason d fb =
      if pyStrip (d.failure_reason ++ " " ++ d.error) = "" then fb
      else pyStrip (d.failure_reason ++ " " ++ d.error) := rfl

theorem poll_fails_first (rs : Nat → PollResponse) (fb tm : String) (i : Nat)
    (hi : i * POLL_INTERVAL < POLL_TIMEOUT)
    (hpre : ∀ j, j < i → nonTerminal (rs j))
    (hcode : (rs i).code = 0)
    (hfail : (rs i).data.status = some "failed") :
    pollFrom rs fb tm (POLL_TIMEOUT / POLL_INTERVAL) 0 =
      Except.error (PollError.runtimeError (failReason (rs i).data fb)) := by
  apply pollFrom_at rs fb tm _ 0 i _ ((pollIndexBound i).mpr hi)
  · intro l hl
    rw [Nat.zero_add]
    exact (pollStep_none_iff _ _).mpr (hpre l hl)
  · rw [Nat.zero_add]
    exact pollStep_failed _ _ hcode hfail

/-- Claim C8: `poll_result` returns normally if and only if some issued
query observed status "succeeded" (with application code 0) after a run of
non-terminal queries, and then it returns exactly that query's `data`
payload; a "pending" status never makes it return. -/
theorem poll_result_ok_iff (taskId : String) (rs : Nat → PollResponse) (d : PollData) :
    poll_result taskId rs = Except.ok d ↔
      ∃ i, i * POLL_INTERVAL < POLL_TIMEOUT ∧ (∀ j, j < i → nonTerminal (rs j)) ∧
        (rs i).code = 0 ∧ (rs i).data.status = some "succeeded" ∧ (rs i).data = d := by
  unfold poll_result
  rw [pollFrom_ok_iff]
  constructor
  · rintro ⟨j, hj, hnone, hsome⟩
    rw [Nat.zero_add] at hsome
    have hc := (pollStep_ok_iff _ _ _).mp hsome
    refine ⟨j, (pollIndexBound j).mp hj, ?_, hc.1, hc.2.1, hc.2.2⟩
    intro l hl
    have h := hnone l hl
    rw [Nat.zero_add] at h
    exact (pollStep_none_iff _ _).mp h
  · rintro ⟨i, hi, hpre, hc0, hst, hd⟩
    refine ⟨i, (pollIndexBound i).mpr hi, ?_, ?_⟩
    · intro l hl
      rw [Nat.zero_add]
      exact (pollStep_none_iff _ _).mpr (hpre l hl)
    · rw [Nat.zero_add]
      exact (pollStep_ok_iff _ _ _).mpr ⟨hc0, hst, hd⟩

/-- Claim C3, counterexample: on a first query reporting `failed` with empty
`failure_reason` and `error` fields, the `veo3-1` copy of `poll_result`
raises the message "Generation failed with unknown reason", which is not
the message "unknown failure" stated by the claim. -/
theorem poll_empty_reason_counterexample :
    poll_result "task1" rsFailedEmpty =
      Except.error (PollError.runtimeError "Generation failed with unknown reason") ∧
    "Generation failed with unknown reason" ≠ "unknown failure" := by
  constructor
  · rfl
  · decide

/-- Claim C3, amended: when the first terminal query reports `failed`, both
copies of `poll_result` raise a `RuntimeError` whose message is the
space-separated, whitespace-trimmed concatenation of the `failure_reason`
and `error` fields; when that concatenation is empty, the `veo3.1` copy
uses exactly "unknown failure" while the `veo3-1` copy uses
"Generation failed with unknown reason". -/
theorem poll_failed_reason (taskId : String) (rs : Nat → PollResponse) (i : Nat)
    (hi : i * POLL_INTERVAL < POLL_TIMEOUT)
    (hpre : ∀ j, j < i → nonTerminal (rs j))
    (hcode : (rs i).code = 0)
    (hfail : (rs i).data.status = some "failed") :
    poll_result taskId rs = Except.error (PollError.runtimeError
      (if pyStrip ((rs i).data.failure_reason ++ " " ++ (rs i).data.error) = ""
       then "Generation failed with unknown reason"
       else pyStrip ((rs i).data.failure_reason ++ " " ++ (rs i).data.error))) ∧
    poll_result_veo31 rs = Except.error (PollError.runtimeError
      (if pyStrip ((rs i).data.failure_reason ++ " " ++ (rs i).data.error) = ""
       then "unknown failure"
       else pyStrip ((rs i).data.failure_reason ++ " " ++ (rs i).data.error))) := by
  constructor
  · unfold poll_result
    rw [poll_fails_first rs _ _ i hi hpre hcode hfail, failReason_eq]
  · unfold poll_result_veo31
    rw [poll_fails_first rs _ _ i hi hpre hcode hfail, failReason_eq]

/-- Witness for the amended claim C3 at a concrete failed response with a
non-empty reason. -/
theorem poll_failed_reason_witness :
    poll_result "t" rsFailedReason = Except.error (PollError.runtimeError "bad stuff") ∧
    poll_result_veo31 rsFailedReason = Except.error (PollError.runtimeError "bad stuff") := by
  have h := poll_failed_reason "t" rsFailedReason 0 (by decide)
    (fun j hj => absurd hj (Nat.not_lt_zero j)) rfl rfl
  have e : (if pyStrip (("bad" : String) ++ " " ++ "stuff") = ""
      then "Generation failed with unknown reason"
      else pyStrip (("bad" : String) ++ " " ++ "stuff")) = "bad stuff" := by decide
  have e2 : (if pyStrip (("bad" : String) ++ " " ++ "stuff") = ""
      then "unknown failure"
      else pyStrip (("bad" : String) ++ " " ++ "stuff")) = "bad stuff" := by decide
  constructor
  · exact h.1.trans (congrArg (fun s => Except.error (PollError.runtimeError s)) e)
  · exact h.2.trans (congrArg (fun s => Except.error (PollError.runtimeError s)) e2)

/-! ### Lemmas about the retry driver -/

theorem tryGenerateGo_cycles_le (outcome : Nat → CycleOutcome) (maxRetries : Nat) :
    ∀ fuel attempt delay le,
      (tryGenerateGo outcome maxRetries fuel attempt delay le).cycles ≤ fuel := by
  intro fuel
  induction fuel with
  | zero => intro attempt delay le; simp [tryGenerateGo]
  | succ fuel ih =>
    intro attempt delay le
    simp only [tryGenerateGo]
    cases h : outcome attempt with
    | success d => simp
    | timeoutErr msg =>
      by_cases ha : attempt < maxRetries
      · simp only [ha, if_true]
        exact Nat.succ_le_succ (ih (attempt + 1) (min (delay * 2) 60) (GenError.timeoutError msg))
      · simp [ha]
    | runtimeErr msg =>
      by_cases hp : is_permanent_error msg
      · simp [hp]
      · by_cases ha : attempt < maxRetries
        · simp only [hp, Bool.false_eq_true, if_false, ha, if_true]
          exact Nat.succ_le_succ (ih (attempt + 1) (min (delay * 2) 60) (GenError.runtimeError msg))
        · simp [hp, ha]

theorem tryGenerateGo_step (outcome : Nat → CycleOutcome) (maxRetries : Nat)
    (fuel a delay : Nat) (le : GenError) (hf : 0 < fuel)
    (hta : transientAt outcome a) (ha : a < maxRetries) :
    tryGenerateGo outcome maxRetries fuel a delay le =
      ⟨(tryGenerateGo outcome maxRetries (fuel - 1) (a + 1) (min (delay * 2) 60)
          (cycleErr (outcome a))).result,
       delay :: (tryGenerateGo outcome maxRetries (fuel - 1) (a + 1) (min (delay * 2) 60)
          (cycleErr (outcome a))).sleeps,
       (tryGenerateGo outcome maxRetries (fuel - 1) (a + 1) (min (delay * 2) 60)
          (cycleErr (outcome a))).cycles + 1⟩ := by
  obtain ⟨fuel', rfl⟩ : ∃ f, fuel = f + 1 := ⟨fuel - 1, by omega⟩
  simp only [Nat.add_sub_cancel, tryGenerateGo]
  cases h : outcome a with
  | success d => simp [transientAt, h] at hta
  | timeoutErr msg => simp [h, ha, cycleErr]
  | runtimeErr msg =>
    have hperm : is_permanent_error msg = false := by simpa [transientAt, h] using hta
    simp [h, hperm, ha, cycleErr]

theorem tryGenerateGo_perm (outcome : Nat → CycleOutcome) (maxRetries : Nat)
    (fuel a delay : Nat) (le : GenError) (msg : String) (hf : 0 < fuel)
    (h : outcome a = CycleOutcome.runtimeErr msg)
    (hp : is_permanent_error msg = true) :
    tryGenerateGo outcome maxRetries fuel a delay le =
      ⟨Except.error (GenError.runtimeError msg), [], 1⟩ := by
  obtain ⟨fuel', rfl⟩ : ∃ f, fuel = f + 1 := ⟨fuel - 1, by omega⟩
  simp [tryGenerateGo, h, hp]

theorem tryGenerateGo_allTransient (outcome : Nat → CycleOutcome) (maxRetries : Nat) :
    ∀ fuel a delay le, fuel = maxRetries + 1 - a → 1 ≤ a → a ≤ maxRetries →
      (∀ i, a ≤ i → i ≤ maxRetries → transientAt outcome i) →
      tryGenerateGo outcome maxRetries fuel a delay le =
        ⟨Except.error (cycleErr (outcome maxRetries)), delaySeq delay (maxRetries - a),
          maxRetries + 1 - a⟩ := by
  intro fuel
  induction fuel with
  | zero => intro a delay le hfuel h1 hm htr; omega
  | succ fuel ih =>
    intro a delay le hfuel h1 hm htr
    have hta := htr a (le_refl a) hm
    by_cases ha : a < maxRetries
    · rw [tryGenerateGo_step outcome maxRetries (fuel + 1) a delay le (by omega) hta ha]
      rw [Nat.add_sub_cancel,
        ih (a + 1) (min (delay * 2) 60) (cycleErr (outcome a)) (by omega) (by omega) (by omega)
          (fun i hi1 hi2 => htr i (by omega) hi2)]
      have e1 : maxRetries - a = (maxRetries - (a + 1)) + 1 := by omega
      rw [e1]
      simp only [delaySeq, GenTrace.mk.injEq]
      refine ⟨trivial, trivial, by omega⟩
    · have haeq : a = maxRetries := by omega
      subst haeq
      cases h : outcome a with
      | success d => simp [transientAt, h] at hta
      | timeoutErr msg =>
        simp [tryGenerateGo, h, ha, cycleErr, delaySeq, Nat.sub_self]
      | runtimeErr msg =>
        have hperm : is_permanent_error msg = false := by simpa [transientAt, h] using hta
        simp [tryGenerateGo, h, hperm, ha, cycleErr, delaySeq, Nat.sub_self]

theorem tryGenerateGo_front (outcome : Nat → CycleOutcome) (maxRetries : Nat) :
    ∀ k a delay le, (∀ i, a ≤ i → i < a + k → transientAt outcome i) → a + k ≤ maxRetries →
      ∃ le2, tryGenerateGo outcome maxRetries (maxRetries + 1 - a) a delay le =
        ⟨(tryGenerateGo outcome maxRetries (maxRetries + 1 - (a + k)) (a + k)
            (capIter delay k) le2).result,
         delaySeq delay k ++ (tryGenerateGo outcome maxRetries (maxRetries + 1 - (a + k)) (a + k)
            (capIter delay k) le2).sleeps,
         (tryGenerateGo outcome maxRetries (maxRetries + 1 - (a + k)) (a + k)
            (capIter delay k) le2).cycles + k⟩ := by
  intro k
  induction k with
  | zero =>
    intro a delay le htr hk
    exact ⟨le, by simp [capIter, delaySeq]⟩
  | succ k ih =>
    intro a delay le htr hk
    have hta : transientAt outcome a := htr a (le_refl a) (by omega)
    have ha : a < maxRetries := by omega
    rw [tryGenerateGo_step outcome maxRetries (maxRetries + 1 - a) a delay le (by omega) hta ha]
    have e1 : maxRetries + 1 - a - 1 = maxRetries + 1 - (a + 1) := by omega
    rw [e1]
    obtain ⟨le2, hrec⟩ := ih (a + 1) (min (delay * 2) 60) (cycleErr (outcome a))
      (fun i hi1 hi2 => htr i (by omega) (by omega)) (by omega)
    rw [hrec]
    refine ⟨le2, ?_⟩
    have e2 : a + 1 + k = a + (k + 1) := by omega
    rw [e2]
    simp only [delaySeq, capIter, List.cons_append, GenTrace.mk.injEq]
    refine ⟨trivial, trivial, by omega⟩

theorem delaySeq_length (d : Nat) : ∀ k, (delaySeq d k).length = k := by
  intro k
  induction k generalizing d with
  | zero => simp [delaySeq]
  | succ k ih => simp [delaySeq, ih]

theorem capDouble (m : Nat) :
    min (min (5 * 2 ^ m) 60 * 2) 60 = min (5 * 2 ^ (m + 1)) 60 := by
  have hp : 5 * 2 ^ (m + 1) = 2 * (5 * 2 ^ m) := by ring
  omega

theorem delaySeq_get (k : Nat) :
    ∀ m j, j < k → (delaySeq (min (5 * 2 ^ m) 60) k)[j]? = some (min (5 * 2 ^ (m + j)) 60) := by
  induction k with
  | zero => intro m j hj; omega
  | succ k ih =>
    intro m j hj
    match j with
    | 0 => simp [delaySeq]
    | j + 1 =>
      simp only [delaySeq, List.getElem?_cons_succ]
      rw [capDouble m]
      have := ih (m + 1) j (by omega)
      have e : m + 1 + j = m + (j + 1) := by omega
      rwa [e] at this

theorem queryWithRetryGo_cycles_le (q : Nat → QueryOutcome) :
    ∀ fuel attempt delay le, (queryWithRetryGo q fuel attempt delay le).cycles ≤ fuel := by
  intro fuel
  induction fuel with
  | zero => intro attempt delay le; simp [queryWithRetryGo]
  | succ fuel ih =>
    intro attempt delay le
    simp only [queryWithRetryGo]
    cases h : q attempt with
    | success r => simp
    | transientErr msg =>
      by_cases ha : attempt < MAX_RETRIES
      · simp only [ha, if_true]
        exact Nat.succ_le_succ (ih (attempt + 1) (min (delay * 2) 30) msg)
      · simp [ha]
    | runtimeErr msg => simp

/-- Claim C1: when the cycle at attempt `k` raises a `RuntimeError` whose
message matches a permanent keyword (case-insensitively), after earlier
attempts failing transiently, `try_generate` re-raises that error at once:
the run performs exactly `k` cycles (no further attempt regardless of the
remaining budget) and sleeps only the `k - 1` backoffs of the earlier
transient failures — none after the permanent one. -/
theorem try_generate_permanent_aborts (outcome : Nat → CycleOutcome)
    (maxRetries k : Nat) (msg : String)
    (hk1 : 1 ≤ k) (hkM : k ≤ maxRetries)
    (hpre : ∀ i, 1 ≤ i → i < k → transientAt outcome i)
    (hout : outcome k = CycleOutcome.runtimeErr msg)
    (hperm : is_permanent_error msg = true) :
    (try_generate outcome maxRetries).result = Except.error (GenError.runtimeError msg) ∧
    (try_generate outcome maxRetries).sleeps.length = k - 1 ∧
    (try_generate outcome maxRetries).cycles = k := by
  obtain ⟨le2, hfront⟩ := tryGenerateGo_front outcome maxRetries (k - 1) 1 5
    (GenError.runtimeError "No attempts made")
    (fun i hi1 hi2 => hpre i hi1 (by omega)) (by omega)
  rw [Nat.add_sub_cancel] at hfront
  have ek : 1 + (k - 1) = k := by omega
  rw [ek] at hfront
  rw [tryGenerateGo_perm outcome maxRetries (maxRetries + 1 - k) k (capIter 5 (k - 1)) le2 msg
    (by omega) hout hperm] at hfront
  unfold try_generate
  rw [hfront]
  refine ⟨rfl, ?_, ?_⟩
  · simp [delaySeq_length]
  · exact (by omega : 1 + (k - 1) = k)

/-- Witness for C1: a moderation rejection on the first attempt aborts with
one cycle, no sleeps, even though two more attempts remained. -/
theorem try_generate_permanent_aborts_witness :
    (try_generate outcomePerm 3).result =
      Except.error (GenError.runtimeError "request rejected: moderation") ∧
    (try_generate outcomePerm 3).sleeps.length = 1 - 1 ∧
    (try_generate outcomePerm 3).cycles = 1 :=
  try_generate_permanent_aborts outcomePerm 3 1 "request rejected: moderation"
    (by omega) (by omega) (fun i h1 h2 => absurd h1 (by omega)) rfl (by decide)

/-- Claim C2: when attempts `1..k` fail transiently (and a further attempt
remains), the backoff delay slept before attempt `k + 1` — the `k`-th
element of the sleep trace — equals `min(5 * 2^(k-1), 60)`: initial delay 5,
doubling, capped at 60. -/
theorem try_generate_backoff (outcome : Nat → CycleOutcome) (maxRetries k : Nat)
    (hk1 : 1 ≤ k) (hkM : k < maxRetries)
    (htr : ∀ i, 1 ≤ i → i ≤ k → transientAt outcome i) :
    (try_generate outcome maxRetries).sleeps[k - 1]? = some (min (5 * 2 ^ (k - 1)) 60) := by
  obtain ⟨le2, hfront⟩ := tryGenerateGo_front outcome maxRetries k 1 5
    (GenError.runtimeError "No attempts made")
    (fun i hi1 hi2 => htr i hi1 (by omega)) (by omega)
  rw [Nat.add_sub_cancel] at hfront
  unfold try_generate
  rw [hfront]
  show (delaySeq 5 k ++ _)[k - 1]? = _
  rw [List.getElem?_append, if_pos (by rw [delaySeq_length]; omega)]
  have h := delaySeq_get k 0 (k - 1) (by omega)
  rw [show min (5 * 2 ^ 0) 60 = 5 by decide] at h
  rw [show (0 : Nat) + (k - 1) = k - 1 by omega] at h
  exact h

/-- Witness for C2: with every cycle timing out and `max_retries = 3`, the
sleep before attempt 3 is `min(5 * 2^1, 60) = 10`. -/
theorem try_generate_backoff_witness :
    (try_generate outcomeTimeout 3).sleeps[2 - 1]? = some (min (5 * 2 ^ (2 - 1)) 60) :=
  try_generate_backoff outcomeTimeout 3 2 (by omega) (by omega)
    (fun i h1 h2 => trivial)

/-- Claim C4: a poll timeout (`TimeoutError`) is always treated as
transient — whatever its message (it is never submitted to the
permanent-keyword test, so `msgs` is unconstrained here): every attempt is
retried under the backoff rule, and when the budget is exhausted the last
timeout error is raised as the final failure. -/
theorem try_generate_timeout_transient (outcome : Nat → CycleOutcome)
    (maxRetries : Nat) (msgs : Nat → String)
    (hM : 1 ≤ maxRetries)
    (hall : ∀ i, 1 ≤ i → i ≤ maxRetries → outcome i = CycleOutcome.timeoutErr (msgs i)) :
    (try_generate outcome maxRetries).result =
      Except.error (GenError.timeoutError (msgs maxRetries)) ∧
    (try_generate outcome maxRetries).cycles = maxRetries ∧
    (try_generate outcome maxRetries).sleeps.length = maxRetries - 1 := by
  have htr : ∀ i, 1 ≤ i → i ≤ maxRetries → transientAt outcome i := by
    intro i h1 h2
    simp [transientAt, hall i h1 h2]
  have h := tryGenerateGo_allTransient outcome maxRetries maxRetries 1 5
    (GenError.runtimeError "No attempts made") (by omega) (le_refl 1) hM htr
  unfold try_generate
  rw [h, hall maxRetries hM (le_refl maxRetries)]
  refine ⟨rfl, by show maxRetries + 1 - 1 = maxRetries; omega, ?_⟩
  simp [delaySeq_length]

/-- Witness for C4: two attempts, both timing out with a message that even
contains the permanent keyword "invalid" — still retried, then the last
timeout is raised. -/
theorem try_generate_timeout_transient_witness :
    (try_generate outcomeTimeout 2).result =
      Except.error (GenError.timeoutError "timed out (invalid state never reached)") ∧
    (try_generate outcomeTimeout 2).cycles = 2 ∧
    (try_generate outcomeTimeout 2).sleeps.length = 2 - 1 :=
  try_generate_timeout_transient outcomeTimeout 2
    (fun _ => "timed out (invalid state never reached)") (by omega)
    (fun i h1 h2 => rfl)

/-- Claim C7: no execution of `try_generate` performs more than
`maxRetries` submit-and-poll cycles, and no execution of the gemini
client's `query_with_retry` performs more than `MAX_RETRIES = 3` calls,
whatever the outcome oracle produces. -/
theorem retry_cycle_bound (outcome : Nat → CycleOutcome) (maxRetries : Nat)
    (q : Nat → QueryOutcome) :
    (try_generate outcome maxRetries).cycles ≤ maxRetries ∧
    (query_with_retry q).cycles ≤ MAX_RETRIES :=
  ⟨tryGenerateGo_cycles_le outcome maxRetries maxRetries 1 5
      (GenError.runtimeError "No attempts made"),
   queryWithRetryGo_cycles_le q MAX_RETRIES 1 RETRY_DELAY "No attempts made"⟩

/-- Claim C9: when every attempt fails transiently, `try_generate` sleeps
exactly `maxRetries - 1` times — only between attempts, never after the
final failing attempt — and raises the error of the last cycle. -/
theorem try_generate_sleep_count (outcome : Nat → CycleOutcome) (maxRetries : Nat)
    (hM : 1 ≤ maxRetries)
    (htr : ∀ i, 1 ≤ i → i ≤ maxRetries → transientAt outcome i) :
    (try_generate outcome maxRetries).sleeps.length = maxRetries - 1 ∧
    (try_generate outcome maxRetries).result = Except.error (cycleErr (outcome maxRetries)) ∧
    (try_generate outcome maxRetries).cycles = maxRetries := by
  have h := tryGenerateGo_allTransient outcome maxRetries maxRetries 1 5
    (GenError.runtimeError "No attempts made") (by omega) (le_refl 1) hM htr
  unfold try_generate
  rw [h]
  refine ⟨by simp [delaySeq_length], rfl, by show maxRetries + 1 - 1 = maxRetries; omega⟩

/-- Witness for C9: three transient HTTP 500 failures produce two sleeps,
three cycles and the last error. -/
theorem try_generate_sleep_count_witness :
    (try_generate outcomeHttp500 3).sleeps.length = 3 - 1 ∧
    (try_generate outcomeHttp500 3).result =
      Except.error (GenError.runtimeError "Server error (HTTP 500): boom") ∧
    (try_generate outcomeHttp500 3).cycles = 3 :=
  try_generate_sleep_count outcomeHttp500 3 (by omega)
    (fun i h1 h2 => (by decide : is_permanent_error "Server error (HTTP 500): boom" = false))

/-! ### Download and submit -/

theorem downloadLoop_chunks (cs : List (List Nat)) :
    ∀ acc rest, (∀ b, b ∈ cs → b ≠ []) →
      downloadLoop (cs.map ReadEvent.chunk ++ rest) acc =
        downloadLoop rest (cs.reverse ++ acc) := by
  induction cs with
  | nil => intro acc rest h; simp
  | cons b cs ih =>
    intro acc rest h
    have hb : b ≠ [] := h b (by simp)
    match b with
    | [] => exact absurd rfl hb
    | x :: xs =>
      simp only [List.map_cons, List.cons_append, downloadLoop, List.isEmpty_cons,
        Bool.false_eq_true, if_false, List.append_eq]
      rw [ih ((x :: xs) :: acc) rest (fun b hbmem => h b (by simp [hbmem]))]
      simp [List.append_assoc]

/-- Claim C5: `download_video` buffers every chunk in memory and writes the
destination only after the stream has signalled completion (an empty
chunk).  On a complete transfer the destination holds exactly the
concatenation of all received chunks; when a network (`URLError`) or
timeout error interrupts the stream, nothing is ever written to the
destination, so no partial file is left. -/
theorem download_video_atomic (cs pre : List (List Nat)) (rest : List ReadEvent)
    (reason : String) :
    ((∀ b, b ∈ cs → b ≠ []) →
      download_video (cs.map ReadEvent.chunk ++ [ReadEvent.chunk []]) =
        ⟨some cs.flatten, none⟩) ∧
    ((∀ b, b ∈ pre → b ≠ []) →
      (download_video (pre.map ReadEvent.chunk ++ ReadEvent.urlError reason :: rest)).written
          = none ∧
      (download_video (pre.map ReadEvent.chunk ++ ReadEvent.timeoutErr :: rest)).written
          = none) := by
  constructor
  · intro h
    unfold download_video
    rw [downloadLoop_chunks cs [] _ h]
    simp [downloadLoop]
  · intro h
    constructor
    · unfold download_video
      rw [downloadLoop_chunks pre [] _ h]
      simp [downloadLoop]
    · unfold download_video
      rw [downloadLoop_chunks pre [] _ h]
      simp [downloadLoop]

/-- Witness for C5 at concrete streams: a complete two-chunk transfer
materializes the concatenated bytes; a mid-transfer network failure leaves
nothing written. -/
theorem download_video_atomic_witness :
    download_video ((([[1, 2], [3]] : List (List Nat)).map ReadEvent.chunk) ++
        [ReadEvent.chunk []]) = ⟨some ([[1, 2], [3]] : List (List Nat)).flatten, none⟩ ∧
    (download_video ((([[7]] : List (List Nat)).map ReadEvent.chunk) ++
        ReadEvent.urlError "connection reset" :: [])).written = none :=
  ⟨(download_video_atomic [[1, 2], [3]] [[7]] [] "connection reset").1 (by decide),
   ((download_video_atomic [[1, 2], [3]] [[7]] [] "connection reset").2 (by decide)).1⟩

/-- Claim C10: whatever task id `submit_task` returns is a non-empty
string, and on a response with application code 0 whose `data.id` is
missing or empty, `submit_task` raises instead of returning. -/
theorem submit_task_id_nonempty (r : SubmitResponse) (tid : String) :
    (submit_task r = Except.ok tid → tid ≠ "") ∧
    (r.code = 0 → r.dataId = none ∨ r.dataId = some "" →
      submit_task r = Except.error "No task ID in response") := by
  constructor
  · intro h
    unfold submit_task at h
    by_cases h0 : r.code = 0
    · simp only [h0, ne_eq, not_true_eq_false, if_neg, ite_false] at h
      cases hid : r.dataId with
      | none => rw [hid] at h; simp at h
      | some t =>
        rw [hid] at h
        by_cases ht : t = ""
        · simp [ht] at h
        · simp only [ht, if_false] at h
          injection h with h
          rw [← h]
          exact ht
    · rw [if_pos h0] at h
      simp at h
  · intro h0 hid
    unfold submit_task
    rcases hid with hid | hid
    · simp [h0, hid]
    · simp [h0, hid]

/-- Witness for C10: a present id "T1" is returned and is non-empty; a
missing id with code 0 raises. -/
theorem submit_task_id_nonempty_witness :
    ("T1" : String) ≠ "" ∧
    submit_task ⟨0, none, none⟩ = Except.error "No task ID in response" :=
  ⟨(submit_task_id_nonempty ⟨0, none, some "T1"⟩ "T1").1 (by decide),
   (submit_task_id_nonempty ⟨0, none, none⟩ "x").2 rfl (Or.inl rfl)⟩

/-! ### The faithful poll loop: queries can raise -/

theorem pollStepHttp_response (r : PollResponse) (fb : String) :
    pollStepHttp (HttpResult.response r) fb =
      Option.map (Except.mapError embedPollError) (pollStep r fb) := by
  unfold pollStepHttp pollStep
  by_cases h0 : r.code = 0
  · by_cases hs : r.data.status = some "succeeded"
    · simp [h0, hs, Except.mapError]
    · by_cases hf : r.data.status = some "failed"
      · simp [h0, hs, hf, Except.mapError, embedPollError]
      · simp [h0, hs, hf]
  · simp [h0, Except.mapError, embedPollError]

/-- On runs where no query raises, the faithful loop agrees with the
restricted one (`pollFrom`), up to the embedding of error kinds; the
restricted model used elsewhere is exactly this special case. -/
theorem pollFromHttp_response (rs : Nat → PollResponse) (fb tm : String) :
    ∀ fuel i, pollFromHttp (fun j => HttpResult.response (rs j)) fb tm fuel i =
      Except.mapError embedPollError (pollFrom rs fb tm fuel i) := by
  intro fuel
  induction fuel with
  | zero => intro i; simp [pollFromHttp, pollFrom, Except.mapError, embedPollError]
  | succ fuel ih =>
    intro i
    simp only [pollFromHttp, pollFrom, pollStepHttp_response]
    cases hstep : pollStep (rs i) fb with
    | some res => simp [hstep]
    | none => simp [hstep, ih (i + 1)]

theorem pollStepHttp_none_iff (q : HttpResult) (fb : String) :
    pollStepHttp q fb = none ↔ httpNonTerminal q := by
  cases q with
  | response r =>
    rw [pollStepHttp_response]
    have : httpNonTerminal (HttpResult.response r) = nonTerminal r := rfl
    rw [this, ← pollStep_none_iff r fb]
    cases pollStep r fb <;> simp
  | httpTimeout m => simp [pollStepHttp, httpNonTerminal]
  | httpError m => simp [pollStepHttp, httpNonTerminal]

theorem pollStepHttp_ne_deadline (q : HttpResult) (fb : String)
    (res : Except PollErrorX PollData) (m : String)
    (h : pollStepHttp q fb = some res) :
    res ≠ Except.error (PollErrorX.deadlineTimeout m) := by
  cases q with
  | response r =>
    unfold pollStepHttp at h
    by_cases h0 : r.code = 0
    · by_cases hs : r.data.status = some "succeeded"
      · simp [h0, hs] at h; simp [← h]
      · by_cases hf : r.data.status = some "failed"
        · simp [h0, hs, hf] at h; simp [← h]
        · simp [h0, hs, hf] at h
    · simp [h0] at h; simp [← h]
  | httpTimeout m2 => simp [pollStepHttp] at h; simp [← h]
  | httpError m2 => simp [pollStepHttp] at h; simp [← h]

theorem pollFromHttp_at (qs : Nat → HttpResult) (fb tm : String) :
    ∀ fuel i j res, j < fuel → (∀ l, l < j → pollStepHttp (qs (i + l)) fb = none) →
      pollStepHttp (qs (i + j)) fb = some res → pollFromHttp qs fb tm fuel i = res := by
  intro fuel
  induction fuel with
  | zero => intro i j res hj; omega
  | succ fuel ih =>
    intro i j res hj hnone hsome
    match j with
    | 0 =>
      simp only [Nat.add_zero] at hsome
      simp [pollFromHttp, hsome]
    | j + 1 =>
      have h0 : pollStepHttp (qs i) fb = none := by
        have := hnone 0 (by omega)
        simpa using this
      simp only [pollFromHttp, h0]
      apply ih (i + 1) j res (by omega)
      · intro l hl
        have := hnone (l + 1) (by omega)
        have e : i + (l + 1) = i + 1 + l := by omega
        rwa [e] at this
      · have e : i + (j + 1) = i + 1 + j := by omega
        rwa [e] at hsome

theorem pollFromHttp_deadline_iff (qs : Nat → HttpResult) (fb tm : String) :
    ∀ fuel i m, pollFromHttp qs fb tm fuel i = Except.error (PollErrorX.deadlineTimeout m) ↔
      (m = tm ∧ ∀ j, j < fuel → pollStepHttp (qs (i + j)) fb = none) := by
  intro fuel
  induction fuel with
  | zero =>
    intro i m
    constructor
    · intro h
      refine ⟨?_, by intro j hj; omega⟩
      simp [pollFromHttp] at h
      exact h.symm
    · rintro ⟨hm, -⟩
      simp [pollFromHttp, hm]
  | succ fuel ih =>
    intro i m
    cases hstep : pollStepHttp (qs i) fb with
    | some res =>
      simp only [pollFromHttp, hstep]
      constructor
      · intro h
        exact absurd h (pollStepHttp_ne_deadline (qs i) fb res m hstep)
      · intro h
        have := h.2 0 (by omega)
        simp [hstep] at this
    | none =>
      simp only [pollFromHttp, hstep]
      rw [ih (i + 1) m]
      constructor
      · rintro ⟨hm, hall⟩
        refine ⟨hm, ?_⟩
        intro j hj
        match j with
        | 0 => simpa using hstep
        | j + 1 =>
          have := hall j (by omega)
          have e : i + 1 + j = i + (j + 1) := by omega
          rwa [e] at this
      · rintro ⟨hm, hall⟩
        refine ⟨hm, ?_⟩
        intro j hj
        have := hall (j + 1) (by omega)
        have e : i + (j + 1) = i + 1 + j := by omega
        rwa [e] at this

/-- Claim C6, counterexample: a run whose first status request raises the
per-request read `TimeoutError` of `http_post`.  `poll_result` raises a
timeout error at the very first query — the elapsed time since the first
query is 0 of the 600-unit deadline — and no query observed any status at
all (every query raised), refuting the claim that a timeout error is
raised only once the deadline has elapsed without a terminal status. -/
theorem poll_deadline_counterexample :
    poll_result_http "task1" qsReadTimeout =
      Except.error (PollErrorX.queryTimeout
        "Request to https://grsaiapi.com/v1/draw/result timed out after 45s") ∧
    (∀ i r, qsReadTimeout i ≠ HttpResult.response r) ∧
    ¬ (∀ i, i * POLL_INTERVAL < POLL_TIMEOUT → httpNonTerminal (qsReadTimeout i)) := by
  refine ⟨rfl, ?_, ?_⟩
  · intro i r h
    simp [qsReadTimeout] at h
  · intro h
    exact h 0 (by decide)

/-- Claim C6, amended: `poll_result` raises its own deadline `TimeoutError`
(message naming the task and the 600s `POLL_TIMEOUT`) if and only if every
query admitted by the deadline (issued at `POLL_INTERVAL = 5` unit
intervals while `i * POLL_INTERVAL < POLL_TIMEOUT`) returned without
raising and observed a non-terminal status; in addition, a status request
that itself times out propagates the read `TimeoutError` of `http_post`
out of `poll_result` immediately, so a timeout error can also surface
before the deadline. -/
theorem poll_result_http_timeout_iff (taskId : String) (qs : Nat → HttpResult) :
    (poll_result_http taskId qs =
        Except.error (PollErrorX.deadlineTimeout (pollTimeoutMsg taskId)) ↔
      ∀ i, i * POLL_INTERVAL < POLL_TIMEOUT → httpNonTerminal (qs i)) ∧
    (∀ i m, i * POLL_INTERVAL < POLL_TIMEOUT →
      (∀ j, j < i → httpNonTerminal (qs j)) →
      qs i = HttpResult.httpTimeout m →
      poll_result_http taskId qs = Except.error (PollErrorX.queryTimeout m)) := by
  constructor
  · unfold poll_result_http
    rw [pollFromHttp_deadline_iff]
    constructor
    · rintro ⟨-, hall⟩ i hi
      have h := hall i ((pollIndexBound i).mpr hi)
      rw [Nat.zero_add] at h
      exact (pollStepHttp_none_iff _ _).mp h
    · intro h
      refine ⟨rfl, ?_⟩
      intro j hj
      rw [Nat.zero_add]
      exact (pollStepHttp_none_iff _ _).mpr (h j ((pollIndexBound j).mp hj))
  · intro i m hi hpre hq
    unfold poll_result_http
    apply pollFromHttp_at qs _ _ _ 0 i _ ((pollIndexBound i).mpr hi)
    · intro l hl
      rw [Nat.zero_add]
      exact (pollStepHttp_none_iff _ _).mpr (hpre l hl)
    · rw [Nat.zero_add, hq]
      rfl

/-- Witness for the amended C6: an endlessly pending service runs into the
600s deadline timeout, and a first-query read timeout propagates at once. -/
theorem poll_result_http_timeout_iff_witness :
    poll_result_http "t" qsPending =
      Except.error (PollErrorX.deadlineTimeout (pollTimeoutMsg "t")) ∧
    poll_result_http "t" qsReadTimeout =
      Except.error (PollErrorX.queryTimeout
        "Request to https://grsaiapi.com/v1/draw/result timed out after 45s") := by
  constructor
  · exact (poll_result_http_timeout_iff "t" qsPending).1.mpr
      (fun i hi => (by decide : httpNonTerminal (qsPending 0)))
  · exact (poll_result_http_timeout_iff "t" qsReadTimeout).2 0 _ (by decide)
      (fun j hj => absurd hj (Nat.not_lt_zero j)) rfl

end Grsai
